import Mathlib

/-!
Shallow embedding of `src/main.py` of the TrafficCommuteApp repository:
the schedule gate, the record normalizer, the run-state tracker and the
tracker orchestrator, together with theorems settling the spec's claims.

Modelling conventions:
* Machine-level numbers that the Python code manipulates (seconds, meters,
  config intervals) are carried as `ℚ`; Python's `round(x, 1)` is modelled
  by `round1` below (the claims' inputs are tie-free, so the bankers'
  rounding of Python floats and the rational rounding used here agree).
* A wall-clock instant (`now_chicago()` and parsed timestamps) is reduced
  to the three observations the code makes of it: the weekday name
  (`strftime("%A")`), the time of day in minutes since local midnight
  (`.time()`, the `"%H:%M"`-parsed window bounds live on the same axis),
  and an absolute position in seconds (`(a - b).total_seconds()`).
* Python exceptions are `Except` errors; the error value carries the sheet
  state at the moment the exception escapes, so that post-crash state is
  observable.
* The external world (the HTTP directions provider, the fallibility of
  `append_row`) enters as explicit oracle parameters.
-/

namespace CommuteApp

/-- One leg of a provider route: `duration.value` (seconds),
optional `duration_in_traffic.value` (seconds), `distance.value` (meters),
and the `html_instructions` string of each step. -/
structure Leg where
  duration : ℚ
  duration_in_traffic : Option ℚ
  distance : ℚ
  steps : List String
  deriving DecidableEq

/-- One route alternative of the provider response: optional `summary`
and the list of legs (the code reads `r["legs"][0]`, raising on `[]`). -/
structure RouteAlt where
  summary : Option String
  legs : List Leg
  deriving DecidableEq

/-- The observations the code makes of `now_chicago()`:
weekday name, time of day in minutes since midnight, absolute seconds. -/
structure Now where
  weekday : String
  timeOfDay : ℚ
  abs : ℚ
  deriving DecidableEq

/-- One appended row: `[timestamp, day, summary, duration_min, distance_mi, turn_by_turn]`. -/
structure Record where
  timestamp : ℚ
  day : String
  route : String
  durationMin : ℚ
  distanceMi : ℚ
  directions : String
  deriving DecidableEq

/-- The durable tabular store: the per-route append-only rows and the
`LastRunLog` sheet viewed as an association list route-name ↦ timestamp. -/
structure SheetState where
  rows : List Record
  lastRunLog : List (String × ℚ)
  deriving DecidableEq

/-! ## Record normalization (`log_route_to_sheet`, lines 132-145) -/

/-- Python's `round(x, 1)`: one decimal place. -/
def round1 (x : ℚ) : ℚ := (round (10 * x) : ℤ) / 10

/-- The conversion constant of line 137: 1 mile = 1609.34 m. -/
def mile : ℚ := 160934 / 100

/-- `round(leg.get("duration_in_traffic", leg["duration"])["value"] / 60, 1)`. -/
def duration_min (leg : Leg) : ℚ :=
  round1 ((leg.duration_in_traffic.getD leg.duration) / 60)

/-- `round(leg["distance"]["value"] / 1609.34, 1)`. -/
def distance_mi (leg : Leg) : ℚ :=
  round1 (leg.distance / mile)

/-- Python's `x.replace("<b>", "")`: one left-to-right pass that skips
every occurrence of `<b>` and copies every other character. -/
def removeTagB : List Char → List Char
  | '<' :: 'b' :: '>' :: rest => removeTagB rest
  | c :: rest => c :: removeTagB rest
  | [] => []

/-- Python's `x.replace("</b>", "")`, same one-pass semantics. -/
def removeTagBClose : List Char → List Char
  | '<' :: '/' :: 'b' :: '>' :: rest => removeTagBClose rest
  | c :: rest => c :: removeTagBClose rest
  | [] => []

/-- `step["html_instructions"].replace("<b>", "").replace("</b>", "")`:
the two replacements run sequentially, in this order. -/
def stripBold (s : String) : String :=
  ⟨removeTagBClose (removeTagB s.data)⟩

/-- `" → ".join(...)` over the stripped steps (lines 142-145). -/
def turn_by_turn (steps : List String) : String :=
  String.intercalate " → " (steps.map stripBold)

/-- Modelled from the spec: "each step's instruction string with HTML
markup stripped" — every `<...>` tag removed. Stated only so the spec's
words can be compared with what the code computes. -/
def dropTagsAux : List Char → Bool → List Char
  | [], _ => []
  | c :: cs, inTag =>
      if c = '<' then dropTagsAux cs true
      else if c = '>' then dropTagsAux cs false
      else if inTag then dropTagsAux cs true
      else c :: dropTagsAux cs false

/-- Modelled from the spec: strip all HTML markup from one string. -/
def stripTags (s : String) : String := ⟨dropTagsAux s.data false⟩

/-- Modelled from the spec: the persisted `directions_text` as the spec
words it — fully stripped instructions joined by the arrow separator. -/
def spec_directions_text (steps : List String) : String :=
  String.intercalate " → " (steps.map stripTags)

/-- The record built for one alternative; `r["legs"][0]` raises on an
empty legs list, `r.get("summary", "N/A")` defaults the label. -/
def normalizeAlt (now : Now) (r : RouteAlt) : Except Unit Record :=
  match r.legs with
  | [] => .error ()
  | leg :: _ =>
      .ok { timestamp := now.abs
            day := now.weekday
            route := r.summary.getD "N/A"
            durationMin := duration_min leg
            distanceMi := distance_mi leg
            directions := turn_by_turn leg.steps }

/-- All alternatives of one response normalized in order; an error is the
first `r["legs"][0]` failure. Spells out, for theorem statements, what a
fully successful append pass writes. -/
def normalizeAll (now : Now) : List RouteAlt → Except Unit (List Record)
  | [] => .ok []
  | r :: rs =>
      match normalizeAlt now r, normalizeAll now rs with
      | .ok rec, .ok recs => .ok (rec :: recs)
      | .error e, _ => .error e
      | .ok _, .error e => .error e

/-! ## Directions client (`get_routes`, lines 69-97) -/

/-- What the outside world does to `requests.get`: either the request
raises (network failure) or a response with a status code arrives whose
JSON body holds a list of routes. -/
inductive HttpResult where
  | netError : HttpResult
  | response (status : ℕ) (routes : List RouteAlt) : HttpResult
  deriving DecidableEq

/-- `get_routes`: a raising `requests.get` propagates (no handler);
a non-200 status returns `[]`; on 200 the sanity-print loop reads
`r["legs"][0]` of every route, raising if some route has no legs,
and the routes list is returned. -/
def get_routes (h : HttpResult) : Except Unit (List RouteAlt) :=
  match h with
  | .netError => .error ()
  | .response status routes =>
      if status ≠ 200 then .ok []
      else if routes.all (fun r => !r.legs.isEmpty) then .ok routes
      else .error ()

/-! ## Schedule gate (`log_route_to_sheet`, lines 103-124) -/

/-- `if days and now.strftime("%A") not in days:` — a `None` or empty
`days` is falsy, otherwise the weekday-membership test runs. -/
def dayBlock (days : Option (List String)) (weekday : String) : Bool :=
  match days with
  | none => false
  | some ds => !ds.isEmpty && !ds.contains weekday

/-- `if start and end:` then `if not (start_t <= t <= end_t):` —
the window check only runs when both bounds are present; the bounds are
the `"%H:%M"`-parsed times on the minutes-since-midnight axis. -/
def windowBlock (startT endT : Option ℚ) (t : ℚ) : Bool :=
  match startT, endT with
  | some s, some e => !(decide (s ≤ t) && decide (t ≤ e))
  | _, _ => false

/-- `if last_dt:` then `if (now - last_dt).total_seconds() / 60.0 < float(interval):`. -/
def intervalBlock (interval : ℚ) (nowAbs : ℚ) (last : Option ℚ) : Bool :=
  match last with
  | none => false
  | some l => decide ((nowAbs - l) / 60 < interval)

/-- The gate's decision. -/
inductive Gate where
  | run | skipDay | skipWindow | skipInterval
  deriving DecidableEq

/-- The early-return cascade of lines 107-124: day filter, then window,
then interval cooldown; first hit wins. -/
def scheduleGate (now : Now) (days : Option (List String))
    (startT endT : Option ℚ) (interval : ℚ) (last : Option ℚ) : Gate :=
  if dayBlock days now.weekday then .skipDay
  else if windowBlock startT endT now.timeOfDay then .skipWindow
  else if intervalBlock interval now.abs last then .skipInterval
  else .run

/-! ## Run-state tracker (`get_last_run_time` / `update_last_run_time`) -/

/-- `get_last_run_time`: first row of the log whose route column equals
the name; the store is viewed at the name ↦ timestamp level (parse
failures and read errors, which the code maps to `None` with a warning,
are outside the claims). -/
def get_last_run_time (log : List (String × ℚ)) (name : String) : Option ℚ :=
  (log.find? (fun p => p.1 == name)).map Prod.snd

/-- `update_last_run_time`: upsert — update the first row found for the
route, else append a new `[route_name, timestamp]` row. -/
def update_last_run_time : List (String × ℚ) → String → ℚ → List (String × ℚ)
  | [], name, ts => [(name, ts)]
  | p :: ps, name, ts =>
      if p.1 == name then (name, ts) :: ps else p :: update_last_run_time ps name ts

/-! ## Logging one route (`log_route_to_sheet`, lines 103-169) -/

/-- The `for r in routes:` body: normalize each alternative and
`ws.append_row` its record. `okAppends` is the oracle for how many
appends succeed before one raises; a raise (or an `r["legs"][0]`
`IndexError`) escapes with the rows written so far. -/
def appendAll (now : Now) : List RouteAlt → ℕ → List Record →
    Except (List Record) (List Record)
  | [], _, rows => .ok rows
  | r :: rs, ok, rows =>
      match normalizeAlt now r with
      | .error _ => .error rows
      | .ok rec =>
          match ok with
          | 0 => .error rows
          | ok' + 1 => appendAll now rs ok' (rows ++ [rec])

/-- How one `log_route_to_sheet` call ended, when it returned normally. -/
inductive LogOutcome where
  | skipDay | skipWindow | skipInterval | noRoutes | done
  deriving DecidableEq

/-- `log_route_to_sheet`: gate first (reading last-run from the log), then
`get_routes`; `if not routes:` returns with no state change; otherwise all
alternatives are appended and only then is the last-run entry upserted.
An escaping exception (error case) carries the state at that moment. -/
def log_route_to_sheet (http : HttpResult) (okAppends : ℕ) (now : Now)
    (name : String) (interval : ℚ) (days : Option (List String))
    (startT endT : Option ℚ) (st : SheetState) :
    Except SheetState (LogOutcome × SheetState) :=
  match scheduleGate now days startT endT interval
      (get_last_run_time st.lastRunLog name) with
  | .skipDay => .ok (.skipDay, st)
  | .skipWindow => .ok (.skipWindow, st)
  | .skipInterval => .ok (.skipInterval, st)
  | .run =>
      match get_routes http with
      | .error _ => .error st
      | .ok routes =>
          if routes.isEmpty then .ok (.noRoutes, st)
          else
            match appendAll now routes okAppends st.rows with
            | .error rows' => .error { st with rows := rows' }
            | .ok rows' =>
                .ok (.done, { rows := rows'
                              lastRunLog := update_last_run_time st.lastRunLog name now.abs })

/-! ## Orchestrator (`run_commute_tracker`, lines 213-237) -/

/-- One route document of `config.json`'s `routes` list. For `start` and
`end` the outer `Option` is key presence (the code subscripts
`route["start"]` / `route["end"]`, so a missing key raises `KeyError`),
the inner `Option` is a `null` versus a parsed `"HH:MM"` value;
`interval` is read with `route.get("interval", 15)` so a plain `Option`
suffices. -/
structure RouteDoc where
  name : String
  origin : String
  destination : String
  interval : Option ℚ
  startKey : Option (Option ℚ)
  endKey : Option (Option ℚ)
  deriving DecidableEq

/-- Dictionary subscript: a missing key raises `KeyError`. -/
def getKey {α : Type} : Option α → Except Unit α
  | none => .error ()
  | some v => .ok v

/-- The loop body of `run_commute_tracker` for one route: read
`route["start"]` and `route["end"]` (either missing key raises), then call
`log_route_to_sheet` with `interval = route.get("interval", 15)` and no
`days` argument (it keeps its `None` default). -/
def processRoute (http : HttpResult) (okAppends : ℕ) (now : Now)
    (rd : RouteDoc) (st : SheetState) :
    Except SheetState (LogOutcome × SheetState) :=
  match getKey rd.startKey, getKey rd.endKey with
  | .ok s, .ok e =>
      log_route_to_sheet http okAppends now rd.name (rd.interval.getD 15) none s e st
  | _, _ => .error st

/-- What the run shows per configured route: the loop body completed with
an outcome, or it raised (and the batch stopped). -/
inductive RouteEvent where
  | completed (name : String) (outcome : LogOutcome)
  | raised (name : String)
  deriving DecidableEq

/-- `run_commute_tracker`'s `for route in config["routes"]:` — strictly
sequential, no per-route exception handler: a raise escapes the loop (and
is only caught in `main`, ending the invocation). `fetch` and `okAppends`
are the per-iteration oracles of the outside world. -/
def run_commute_tracker (fetch : ℕ → HttpResult) (okAppends : ℕ → ℕ)
    (now : Now) : List RouteDoc → ℕ → SheetState →
    List RouteEvent × Except SheetState SheetState
  | [], _, st => ([], .ok st)
  | rd :: rds, i, st =>
      match processRoute (fetch i) (okAppends i) now rd st with
      | .error st' => ([.raised rd.name], .error st')
      | .ok (o, st') =>
          let rest := run_commute_tracker fetch okAppends now rds (i + 1) st'
          (.completed rd.name o :: rest.1, rest.2)

/-! ## Concrete instances used by witnesses and counterexamples -/

/-- A leg: 1800 s free-flow, no traffic value, 16093.4 m, two steps. -/
def legW : Leg := ⟨1800, none, 160934 / 10, ["Turn left", "Merge"]⟩

/-- A single-alternative response labelled I-90. -/
def altW : RouteAlt := ⟨some "I-90", [legW]⟩

/-- A Monday 08:00 instant, 600 s on the absolute axis. -/
def nowW : Now := ⟨"Monday", 480, 600⟩

/-- The record `normalizeAlt nowW altW` produces. -/
def recW : Record :=
  ⟨600, "Monday", "I-90", duration_min legW, distance_mi legW, turn_by_turn legW.steps⟩

/-- A route document with all keys present, `start`/`end` null. -/
def docA : RouteDoc := ⟨"A", "o1", "d1", some 15, some none, some none⟩

/-- A second route document with all keys present. -/
def docB : RouteDoc := ⟨"B", "o2", "d2", some 15, some none, some none⟩

/-- A route document whose `start` key (and `interval`) is omitted. -/
def docNoWindow : RouteDoc := ⟨"A", "o1", "d1", none, none, some none⟩

/-! ## Helper lemmas -/

lemma appendAll_ok (now : Now) :
    ∀ (rs : List RouteAlt) (ok : ℕ) (rows rows' : List Record),
      appendAll now rs ok rows = .ok rows' →
      ∃ recs, normalizeAll now rs = Except.ok recs ∧ rows' = rows ++ recs
  | [], ok, rows, rows', h => by
      cases h
      exact ⟨[], rfl, by simp⟩
  | r :: rs, ok, rows, rows', h => by
      unfold appendAll at h
      rcases hn : normalizeAlt now r with e | rec <;> rw [hn] at h
      · cases h
      · rcases ok with _ | ok'
        · cases h
        · obtain ⟨recs, hm, hr⟩ := appendAll_ok now rs ok' (rows ++ [rec]) rows' h
          exact ⟨rec :: recs, by unfold normalizeAll; rw [hn, hm], by simp [hr]⟩

lemma scheduleGate_none_ne_skipDay (now : Now) (sT eT : Option ℚ) (itv : ℚ)
    (last : Option ℚ) : scheduleGate now none sT eT itv last ≠ Gate.skipDay := by
  rcases hw : windowBlock sT eT now.timeOfDay <;>
    rcases hi : intervalBlock itv now.abs last <;>
      simp [scheduleGate, dayBlock, hw, hi]

lemma log_route_ne_skipDay (http : HttpResult) (ok : ℕ) (now : Now) (name : String)
    (itv : ℚ) (sT eT : Option ℚ) (st : SheetState) (o : LogOutcome) (st' : SheetState)
    (h : log_route_to_sheet http ok now name itv none sT eT st = .ok (o, st')) :
    o ≠ LogOutcome.skipDay := by
  unfold log_route_to_sheet at h
  rcases hg : scheduleGate now none sT eT itv (get_last_run_time st.lastRunLog name)
      with _ | _ | _ | _ <;> rw [hg] at h <;> dsimp only at h
  · rcases hr : get_routes http with u | routes <;> rw [hr] at h <;> dsimp only at h
    · cases h
    · rcases hE : routes.isEmpty <;> rw [hE] at h <;>
        simp only [Bool.false_eq_true, if_false, if_true] at h
      · rcases ha : appendAll now routes ok st.rows with rows' | rows' <;>
          rw [ha] at h <;> dsimp only at h
        · cases h
        · cases h; intro hc; cases hc
      · cases h; intro hc; cases hc
  · exact absurd hg (scheduleGate_none_ne_skipDay now sT eT itv
      (get_last_run_time st.lastRunLog name))
  · cases h; intro hc; cases hc
  · cases h; intro hc; cases hc

lemma processRoute_ne_skipDay (http : HttpResult) (ok : ℕ) (now : Now) (rd : RouteDoc)
    (st : SheetState) (o : LogOutcome) (st' : SheetState)
    (h : processRoute http ok now rd st = .ok (o, st')) : o ≠ LogOutcome.skipDay := by
  unfold processRoute at h
  rcases hs : getKey rd.startKey with u | sv <;> rw [hs] at h
  · cases h
  · rcases he : getKey rd.endKey with u | ev <;> rw [he] at h
    · cases h
    · exact log_route_ne_skipDay http ok now rd.name (rd.interval.getD 15) sv ev st o st' h

lemma round1_mono {x y : ℚ} (h : x ≤ y) : round1 x ≤ round1 y := by
  unfold round1
  have hr : round (10 * x) ≤ round (10 * y) := by
    rw [round_eq, round_eq]; exact Int.floor_mono (by linarith)
  gcongr

lemma intercalate_go_append (sep : String) :
    ∀ (as : List String) (a b : String),
      String.intercalate.go (a ++ b) sep as = a ++ String.intercalate.go b sep as
  | [], a, b => rfl
  | c :: cs, a, b => by
      show String.intercalate.go (a ++ b ++ sep ++ c) sep cs
          = a ++ String.intercalate.go (b ++ sep ++ c) sep cs
      rw [String.append_assoc a b sep, String.append_assoc a (b ++ sep) c]
      exact intercalate_go_append sep cs a (b ++ sep ++ c)

lemma turn_by_turn_cons₂ (s t : String) (ts : List String) :
    turn_by_turn (s :: t :: ts) = stripBold s ++ " → " ++ turn_by_turn (t :: ts) := by
  show String.intercalate.go (stripBold s ++ " → " ++ stripBold t) " → " (ts.map stripBold)
      = stripBold s ++ " → " ++ String.intercalate.go (stripBold t) " → " (ts.map stripBold)
  exact intercalate_go_append " → " (ts.map stripBold) (stripBold s ++ " → ") (stripBold t)

/-! ## Claims -/

/-- C9: `duration_min` prefers the first leg's `duration_in_traffic` value
over the base `duration` when it is present, uses the base duration when it
is absent, and in both cases divides by 60 and rounds to one decimal;
base 600 s with traffic 900 s yields 15.0 and base 600 s alone yields 10.0. -/
theorem C9_duration_preference (leg : Leg) (t : ℚ) :
    (leg.duration_in_traffic = some t → duration_min leg = round1 (t / 60)) ∧
    (leg.duration_in_traffic = none → duration_min leg = round1 (leg.duration / 60)) ∧
    duration_min ⟨600, some 900, 0, []⟩ = 15 ∧
    duration_min ⟨600, none, 0, []⟩ = 10 := by
  refine ⟨fun h => by simp [duration_min, h], fun h => by simp [duration_min, h], ?_, ?_⟩
  · norm_num [duration_min, round1]
  · norm_num [duration_min, round1]

/-- Witness for C9 at a concrete leg carrying a traffic duration. -/
theorem C9_witness :
    duration_min ⟨600, some 900, 0, []⟩ = round1 (900 / 60) :=
  (C9_duration_preference ⟨600, some 900, 0, []⟩ 900).1 rfl

/-- C10: `distance_mi` is the leg's meters divided by 1609.34 rounded to
one decimal; 1609.34 m gives 1.0 mi, 16093.4 m gives 10.0 mi, and the
conversion is monotone in the input meters. -/
theorem C10_distance_conversion (l1 l2 : Leg) :
    distance_mi l1 = round1 (l1.distance / mile) ∧
    distance_mi ⟨0, none, 160934 / 100, []⟩ = 1 ∧
    distance_mi ⟨0, none, 160934 / 10, []⟩ = 10 ∧
    (l1.distance ≤ l2.distance → distance_mi l1 ≤ distance_mi l2) := by
  refine ⟨rfl, ?_, ?_, fun h => round1_mono (by unfold mile; gcongr)⟩ <;>
    norm_num [distance_mi, round1, mile]

/-- Witness for C10: monotonicity at two concrete legs. -/
theorem C10_witness :
    distance_mi ⟨0, none, 100, []⟩ ≤ distance_mi ⟨0, none, 200, []⟩ :=
  (C10_distance_conversion ⟨0, none, 100, []⟩ ⟨0, none, 200, []⟩).2.2.2 (by norm_num)

/-- C2 counterexample: when the underlying network request fails,
`get_routes` raises (the exception propagates); it does not return `[]`. -/
theorem C2_counterexample :
    get_routes HttpResult.netError = Except.error () := rfl

/-- C2 (amended): `get_routes` fails closed — returns `[]` without
raising — when the provider responds with a non-200 (in particular any
non-2xx) status; but a failure of the network request itself is not
caught and propagates as an exception. -/
theorem C2_fails_closed (status : ℕ) (routes : List RouteAlt) (h : status ≠ 200) :
    get_routes (HttpResult.response status routes) = Except.ok [] ∧
    get_routes HttpResult.netError = Except.error () :=
  ⟨by simp [get_routes, h], rfl⟩

/-- Witness for C2 at a concrete 500 response. -/
theorem C2_witness :
    get_routes (HttpResult.response 500 []) = Except.ok [] :=
  (C2_fails_closed 500 [] (by decide)).1

/-- C7 counterexample: with both bounds set but inverted
(start 22:00 = 1320 min, end 06:00 = 360 min), a `now` whose time of day
equals the end bound is skipped by the window check. -/
theorem C7_counterexample :
    scheduleGate ⟨"Monday", 360, 0⟩ none (some 1320) (some 360) 15 none
      = Gate.skipWindow := by decide

/-- C7 (amended): for a route with both window bounds set and
`start ≤ end`, a `now` whose time of day equals either bound is inside the
window, so the gate does not return the window skip. -/
theorem C7_window_boundary (now : Now) (s e : ℚ) (days : Option (List String))
    (interval : ℚ) (last : Option ℚ) (hse : s ≤ e)
    (ht : now.timeOfDay = s ∨ now.timeOfDay = e) :
    scheduleGate now days (some s) (some e) interval last ≠ Gate.skipWindow := by
  have hw : windowBlock (some s) (some e) now.timeOfDay = false := by
    rcases ht with h | h <;>
      simp [windowBlock, h, hse, le_refl]
  unfold scheduleGate
  rcases hd : dayBlock days now.weekday <;>
    rcases hi : intervalBlock interval now.abs last <;>
      simp [hd, hw, hi]

/-- Witness for C7 at a concrete window 05:00-06:00 with `now` at the end
bound. -/
theorem C7_witness :
    scheduleGate ⟨"Monday", 360, 0⟩ none (some 300) (some 360) 15 none
      ≠ Gate.skipWindow :=
  C7_window_boundary ⟨"Monday", 360, 0⟩ 300 360 none 15 none (by norm_num) (Or.inr rfl)

/-- C8 counterexample: the code removes only the bold tokens, so an
instruction carrying other HTML markup is not the fully stripped text the
claim describes. -/
theorem C8_counterexample :
    turn_by_turn ["Turn <i>left</i>"] ≠ spec_directions_text ["Turn <i>left</i>"] := by
  decide

/-- C8 (amended): the persisted directions text is each step's instruction
with the bold markup tokens `<b>` and `</b>` removed (other HTML markup is
preserved), joined by the arrow separator `" → "` in the original step
order; an empty steps list yields the empty string. -/
theorem C8_directions_text (s : String) (ss : List String) (h : ss ≠ []) :
    turn_by_turn [] = "" ∧
    turn_by_turn [s] = stripBold s ∧
    turn_by_turn (s :: ss) = stripBold s ++ " → " ++ turn_by_turn ss := by
  rcases ss with _ | ⟨t, ts⟩
  · exact absurd rfl h
  · exact ⟨rfl, rfl, turn_by_turn_cons₂ s t ts⟩

/-- Witness for C8 at a concrete two-step list with bold markup. -/
theorem C8_witness :
    turn_by_turn ["Turn <b>left</b>", "Merge"]
      = stripBold "Turn <b>left</b>" ++ " → " ++ turn_by_turn ["Merge"] :=
  (C8_directions_text "Turn <b>left</b>" ["Merge"] (by decide)).2.2

/-- C6: the gate evaluates day-of-week, then time-of-day window, then
interval cooldown, first match producing the corresponding skip; the
cooldown compares `(now - last_run)` in fractional minutes against the
interval; a decision other than `run` makes the outcome of
`log_route_to_sheet` independent of the HTTP world, i.e. no directions
request is issued. -/
theorem C6_gate_order (now : Now) (days : Option (List String))
    (sT eT : Option ℚ) (interval : ℚ) (last : Option ℚ)
    (h1 h2 : HttpResult) (ok : ℕ) (name : String) (st : SheetState) :
    (dayBlock days now.weekday = true →
        scheduleGate now days sT eT interval last = Gate.skipDay) ∧
    (dayBlock days now.weekday = false →
      windowBlock sT eT now.timeOfDay = true →
        scheduleGate now days sT eT interval last = Gate.skipWindow) ∧
    (dayBlock days now.weekday = false →
      windowBlock sT eT now.timeOfDay = false →
      ∀ l, last = some l →
        (scheduleGate now days sT eT interval last = Gate.skipInterval ↔
          (now.abs - l) / 60 < interval)) ∧
    (scheduleGate now days sT eT interval last = Gate.run ↔
      (dayBlock days now.weekday = false ∧ windowBlock sT eT now.timeOfDay = false ∧
        intervalBlock interval now.abs last = false)) ∧
    (scheduleGate now days sT eT interval (get_last_run_time st.lastRunLog name) ≠ Gate.run →
      log_route_to_sheet h1 ok now name interval days sT eT st =
        log_route_to_sheet h2 ok now name interval days sT eT st) := by
  refine ⟨fun hd => by simp [scheduleGate, hd],
    fun hd hw => by simp [scheduleGate, hd, hw], ?_, ?_, ?_⟩
  · intro hd hw l hl
    subst hl
    simp [scheduleGate, hd, hw, intervalBlock]
  · rcases hd : dayBlock days now.weekday <;>
      rcases hw : windowBlock sT eT now.timeOfDay <;>
        rcases hi : intervalBlock interval now.abs last <;>
          simp [scheduleGate, hd, hw, hi]
  · intro hne
    unfold log_route_to_sheet
    rcases hg : scheduleGate now days sT eT interval
        (get_last_run_time st.lastRunLog name) with _ | _ | _ | _
    · exact absurd hg hne
    all_goals rfl

/-- Witness for C6: a Sunday against an active-days list of Monday is
skipped by the day check. -/
theorem C6_witness :
    scheduleGate ⟨"Sunday", 480, 0⟩ (some ["Monday"]) none none 15 none
      = Gate.skipDay :=
  (C6_gate_order ⟨"Sunday", 480, 0⟩ (some ["Monday"]) none none 15 none
    HttpResult.netError HttpResult.netError 0 "A" ⟨[], []⟩).1 (by decide)

/-- C1 counterexample: with two configured routes and the first route's
directions fetch raising a network error, the run's trace holds only the
first route's failure — the second configured route is never attempted. -/
theorem C1_counterexample :
    (run_commute_tracker (fun _ => HttpResult.netError) (fun _ => 0) nowW
      [docA, docB] 0 ⟨[], []⟩).1 = [RouteEvent.raised "A"] := rfl

/-- C1 (amended): a failure raised while processing one route — a network
error in the directions fetch, a normalization error, or a record-append
failure — is not contained per route: the loop has no handler, the batch
aborts with that exception, and no subsequent configured route is
attempted. -/
theorem C1_failure_aborts (fetch : ℕ → HttpResult) (okA : ℕ → ℕ) (now : Now)
    (rd : RouteDoc) (rds : List RouteDoc) (i : ℕ) (st st' : SheetState)
    (h : processRoute (fetch i) (okA i) now rd st = .error st') :
    run_commute_tracker fetch okA now (rd :: rds) i st
      = ([RouteEvent.raised rd.name], Except.error st') := by
  unfold run_commute_tracker
  rw [h]

/-- Witness for C1 at the two-route configuration whose first fetch
raises. -/
theorem C1_witness :
    run_commute_tracker (fun _ => HttpResult.netError) (fun _ => 0) nowW
      [docA, docB] 0 ⟨[], []⟩ = ([RouteEvent.raised "A"], Except.error ⟨[], []⟩) :=
  C1_failure_aborts (fun _ => HttpResult.netError) (fun _ => 0) nowW docA [docB] 0
    ⟨[], []⟩ ⟨[], []⟩ rfl

/-- C3: the run-state entry is written only after all records of the run
were appended. Whenever `log_route_to_sheet` raises (fetch exception or
append failure after any number of partial writes) or returns without the
`done` outcome (gate skip, empty alternatives), the route's last-run log is
exactly its pre-run value; on `done` the last-run log is the upsert of the
gate's `now` and the rows are the old rows plus every normalized record. -/
theorem C3_runstate_atomic (http : HttpResult) (ok : ℕ) (now : Now)
    (name : String) (interval : ℚ) (days : Option (List String))
    (sT eT : Option ℚ) (st : SheetState) :
    (∀ st', log_route_to_sheet http ok now name interval days sT eT st
        = .error st' → st'.lastRunLog = st.lastRunLog) ∧
    (∀ o st', log_route_to_sheet http ok now name interval days sT eT st
        = .ok (o, st') → o ≠ LogOutcome.done → st' = st) ∧
    (∀ st', log_route_to_sheet http ok now name interval days sT eT st
        = .ok (LogOutcome.done, st') →
      st'.lastRunLog = update_last_run_time st.lastRunLog name now.abs ∧
      ∃ routes recs, get_routes http = Except.ok routes ∧ routes ≠ [] ∧
        normalizeAll now routes = Except.ok recs ∧
        st'.rows = st.rows ++ recs) := by
  unfold log_route_to_sheet
  rcases hg : scheduleGate now days sT eT interval (get_last_run_time st.lastRunLog name)
      with _ | _ | _ | _ <;> dsimp only
  case skipDay =>
    refine ⟨?_, ?_, ?_⟩
    · intro st' h; cases h
    · intro o st' h _; cases h; rfl
    · intro st' h; cases h
  case skipWindow =>
    refine ⟨?_, ?_, ?_⟩
    · intro st' h; cases h
    · intro o st' h _; cases h; rfl
    · intro st' h; cases h
  case skipInterval =>
    refine ⟨?_, ?_, ?_⟩
    · intro st' h; cases h
    · intro o st' h _; cases h; rfl
    · intro st' h; cases h
  case run =>
    rcases hr : get_routes http with u | routes <;> dsimp only
    · refine ⟨?_, ?_, ?_⟩
      · intro st' h; cases h; rfl
      · intro o st' h _; cases h
      · intro st' h; cases h
    · rcases hE : routes.isEmpty <;> simp only [Bool.false_eq_true, if_false, if_true]
      · rcases ha : appendAll now routes ok st.rows with rows' | rows' <;> dsimp only
        · refine ⟨?_, ?_, ?_⟩
          · intro st' h; cases h; rfl
          · intro o st' h _; cases h
          · intro st' h; cases h
        · refine ⟨?_, ?_, ?_⟩
          · intro st' h; cases h
          · intro o st' h hne; cases h; exact absurd rfl hne
          · intro st' h
            cases h
            obtain ⟨recs, hm, hrw⟩ := appendAll_ok now routes ok st.rows rows' ha
            refine ⟨rfl, routes, recs, rfl, ?_, hm, hrw⟩
            intro hnil
            rw [hnil] at hE
            cases hE
      · refine ⟨?_, ?_, ?_⟩
        · intro st' h; cases h
        · intro o st' h _; cases h; rfl
        · intro st' h; cases h

/-- Witness for C3: a successful one-alternative run from an empty store
appends the normalized record and upserts the last-run entry. -/
theorem C3_witness :
    (SheetState.mk [recW] [("HomeWork", 600)]).lastRunLog
        = update_last_run_time (SheetState.mk [] []).lastRunLog "HomeWork" nowW.abs ∧
    ∃ routes recs, get_routes (HttpResult.response 200 [altW]) = Except.ok routes ∧
      routes ≠ [] ∧ normalizeAll nowW routes = Except.ok recs ∧
      (SheetState.mk [recW] [("HomeWork", 600)]).rows = (SheetState.mk [] []).rows ++ recs :=
  (C3_runstate_atomic (HttpResult.response 200 [altW]) 1 nowW "HomeWork" 15 none none none
      ⟨[], []⟩).2.2 ⟨[recW], [("HomeWork", 600)]⟩ rfl

/-- C4 counterexample: a route document omitting the `start` key is not
processed — the orchestrator's `route["start"]` lookup raises and the run
aborts. -/
theorem C4_counterexample :
    run_commute_tracker (fun _ => HttpResult.response 200 []) (fun _ => 0) nowW
      [docNoWindow] 0 ⟨[], []⟩ = ([RouteEvent.raised "A"], Except.error ⟨[], []⟩) := rfl

/-- C4 (amended): a route document that omits `interval` is processed with
the default 15 minutes (with `start`/`end` keys present — null values mean
no time-window restriction); but a document omitting the `start` or `end`
key raises `KeyError` and that route is not processed. -/
theorem C4_optional_fields (http : HttpResult) (ok : ℕ) (now : Now)
    (name org dst : String) (sv ev : Option ℚ) (st : SheetState) :
    processRoute http ok now ⟨name, org, dst, none, some sv, some ev⟩ st
      = log_route_to_sheet http ok now name 15 none sv ev st ∧
    ∀ (rd : RouteDoc) (st2 : SheetState), rd.startKey = none ∨ rd.endKey = none →
      processRoute http ok now rd st2 = .error st2 := by
  constructor
  · rfl
  · intro rd st2 hmiss
    rcases rd with ⟨n, o2, d2, itv, sk, ek⟩
    rcases hmiss with h | h
    · subst h; rfl
    · subst h
      rcases sk with _ | sv2 <;> rfl

/-- Witness for C4 at the document whose `start` key is missing. -/
theorem C4_witness :
    processRoute (HttpResult.response 200 []) 0 nowW docNoWindow ⟨[], []⟩
      = Except.error ⟨[], []⟩ :=
  (C4_optional_fields (HttpResult.response 200 []) 0 nowW "A" "o1" "d1" none none
    ⟨[], []⟩).2 docNoWindow ⟨[], []⟩ (Or.inl rfl)

/-- C5: the orchestrator leaves `days` at its `None` default, under which
the gate cannot decide `skip-day`, and consequently no route of any run
ever completes with the skip-day outcome, whatever `now` is. -/
theorem C5_no_skip_day (fetch : ℕ → HttpResult) (okA : ℕ → ℕ) (now : Now)
    (rds : List RouteDoc) :
    (∀ (sT eT : Option ℚ) (itv : ℚ) (last : Option ℚ),
       scheduleGate now none sT eT itv last ≠ Gate.skipDay) ∧
    ∀ (i : ℕ) (st : SheetState),
      ((run_commute_tracker fetch okA now rds i st).1.countP
        (fun e => match e with
          | RouteEvent.completed _ LogOutcome.skipDay => true
          | _ => false)) = 0 := by
  refine ⟨fun sT eT itv last => scheduleGate_none_ne_skipDay now sT eT itv last, ?_⟩
  induction rds with
  | nil => intro i st; rfl
  | cons rd rds ih =>
      intro i st
      unfold run_commute_tracker
      rcases hp : processRoute (fetch i) (okA i) now rd st with st' | ⟨o, st'⟩ <;> dsimp only
      · rfl
      · have ho := processRoute_ne_skipDay (fetch i) (okA i) now rd st o st' hp
        rcases o
        case skipDay => exact absurd rfl ho
        all_goals simpa [List.countP_cons] using ih (i + 1) st'

/-- Witness for C5: a two-route run against a 404-answering provider
completes both routes and records no skip-day outcome. -/
theorem C5_witness :
    ((run_commute_tracker (fun _ => HttpResult.response 404 []) (fun _ => 0) nowW
      [docA, docB] 0 ⟨[], []⟩).1.countP
        (fun e => match e with
          | RouteEvent.completed _ LogOutcome.skipDay => true
          | _ => false)) = 0 :=
  (C5_no_skip_day (fun _ => HttpResult.response 404 []) (fun _ => 0) nowW [docA, docB]).2
    0 ⟨[], []⟩

end CommuteApp
